import Mathlib

/-!
A shallow embedding of `src/serialMonitor.js` (Serial Monitor CLI).

The source keeps two module-level nullable singletons, `serialConnection`
and `logStream`, and exposes the operations `connectToDevice`,
`disconnectFromDevice`, `sendCommand` and `toggleLogging`, plus the
asynchronous port handlers registered in `connectToDevice`
(`on 'error'`, `on 'close'`) and the parser data handler
(`parser.on('data')`).  Incoming bytes are framed into lines by a
`ReadlineParser` with the two-character delimiter `"\r\n"`.

Each operation below is translated directly from the source.  Operations
return the new session state together with a list of externally visible
effects (port open/close/write attempts, directory creation, file
open/end, operator-visible error reports and informational prints), so
that claims about "no port or file operation", "error surfaced to the
operator" and "no retry" can be stated over the effect trace.
-/

namespace SerialMonitor

/-- A bound serial connection, as configured at `new SerialPort(...)` in
`connectToDevice` (fixed `dataBits: 8`, `stopBits: 1`, `parity: 'none'`). -/
structure Connection where
  path : String
  baudRate : Nat
  dataBits : Nat
  stopBits : Nat
  parity : String
  deriving Repr, DecidableEq

/-- An open append-mode log stream (`fs.createWriteStream(logPath, flags 'a')`).
`contents` records the chunks written so far, in order. -/
structure LogStream where
  filePath : String
  contents : List String
  deriving Repr, DecidableEq

/-- The module-level mutable state of `serialMonitor.js`: the two nullable
singletons `serialConnection` and `logStream` (lines 8-9), together with
counts of live (created and not yet destroyed) port and log-stream
instances, used to state the at-most-one-instance invariant. -/
structure SessionState where
  serialConnection : Option Connection
  logStream : Option LogStream
  liveConnections : Nat
  liveLogStreams : Nat
  deriving Repr, DecidableEq

/-- Externally visible effects of the operations. -/
inductive Effect where
  | portOpenAttempt (path : String) (baud : Nat) : Effect
  | portClose : Effect
  | portWriteAttempt (bytes : String) : Effect
  | mkdir (dir : String) : Effect
  | fileOpenAppend (path : String) : Effect
  | fileEnd (path : String) : Effect
  | reportError (msg : String) : Effect
  | printInfo (msg : String) : Effect
  deriving Repr, DecidableEq

/-- Initial module state: both singletons are `null`. -/
def initState : SessionState := ⟨none, none, 0, 0⟩

/-- The connection object built in `connectToDevice` (lines 125-131). -/
def mkConnection (p : String) (b : Nat) : Connection :=
  ⟨p, b, 8, 1, "none"⟩

/-- `connectToDevice` (lines 84-179), after port and baud selection:
`new SerialPort(...)` either succeeds, binding `serialConnection`, or the
`catch` block (lines 174-178) reports the error and sets
`serialConnection = null`.  No second open is attempted. -/
def connectToDevice (p : String) (b : Nat) (success : Bool) (s : SessionState) :
    SessionState × List Effect :=
  if success then
    ({ s with serialConnection := some (mkConnection p b),
              liveConnections := s.liveConnections + 1 },
     [Effect.portOpenAttempt p b])
  else
    ({ s with serialConnection := none },
     [Effect.portOpenAttempt p b, Effect.reportError "Connection error"])

/-- `disconnectFromDevice` (lines 181-196): if `serialConnection` is null,
nothing happens; otherwise the port is closed, `serialConnection` is
nulled, and an open `logStream` is ended and nulled. -/
def disconnectFromDevice (s : SessionState) : SessionState × List Effect :=
  match s.serialConnection, s.logStream with
  | none, _ => (s, [])
  | some _, none =>
    ({ s with serialConnection := none,
              liveConnections := s.liveConnections - 1 },
     [Effect.portClose])
  | some _, some ls =>
    ({ s with serialConnection := none,
              liveConnections := s.liveConnections - 1,
              logStream := none,
              liveLogStreams := s.liveLogStreams - 1 },
     [Effect.portClose, Effect.fileEnd ls.filePath, Effect.printInfo "Logging stopped"])

/-- The `serialConnection.on('error')` handler (lines 141-145): reports the
error and discards (`= null`) the connection handle.  It does not touch
`logStream`. -/
def handleError (s : SessionState) : SessionState × List Effect :=
  ({ s with serialConnection := none,
            liveConnections :=
              if s.serialConnection.isSome then s.liveConnections - 1
              else s.liveConnections },
   [Effect.reportError "Serial port error"])

/-- The `serialConnection.on('close')` handler (lines 147-155): nulls the
connection and, if `logStream` is open, ends and nulls it. -/
def handleClose (s : SessionState) : SessionState × List Effect :=
  let s1 : SessionState :=
    { s with serialConnection := none,
             liveConnections :=
               if s.serialConnection.isSome then s.liveConnections - 1
               else s.liveConnections }
  match s.logStream with
  | none => (s1, [Effect.printInfo "Serial connection closed"])
  | some ls =>
    ({ s1 with logStream := none, liveLogStreams := s.liveLogStreams - 1 },
     [Effect.printInfo "Serial connection closed", Effect.fileEnd ls.filePath])

/-- `sendCommand` (lines 198-218): when not connected it only prints the
not-connected message; when connected it writes `command + '\r\n'` to the
port, and a write failure is caught and reported.  Neither branch mutates
`serialConnection` or `logStream`. -/
def sendCommand (cmd : String) (writeFails : Bool) (s : SessionState) :
    SessionState × List Effect :=
  match s.serialConnection with
  | none => (s, [Effect.reportError "Not connected to any device"])
  | some _ =>
    if writeFails then
      (s, [Effect.portWriteAttempt (cmd ++ "\r\n"),
           Effect.reportError "Failed to send command"])
    else
      (s, [Effect.portWriteAttempt (cmd ++ "\r\n"),
           Effect.printInfo ("Command sent: " ++ cmd)])

/-- The fixed log directory, `path.join(process.cwd(), 'logs')` rendered
relative to the working directory (line 238). -/
def logDir : String := "logs"

/-- The default log file name offered at the prompt (line 233):
`serial_log_<ISO timestamp with ':' replaced by '-'>.txt`. -/
def defaultLogFileName (isoNow : String) : String :=
  "serial_log_" ++ (isoNow.map (fun c => if c = ':' then '-' else c)) ++ ".txt"

/-- `toggleLogging` (lines 220-252): with `logStream` open, it is ended,
nulled and "Logging stopped" printed; with it closed, the `logs` directory
is created when absent, and an append-mode stream is opened at
`logs/<fileName>` and bound, a failure of that block being caught and
reported. -/
def toggleLogging (fileName : String) (dirExists : Bool) (openFails : Bool)
    (s : SessionState) : SessionState × List Effect :=
  match s.logStream with
  | some ls =>
    ({ s with logStream := none, liveLogStreams := s.liveLogStreams - 1 },
     [Effect.fileEnd ls.filePath, Effect.printInfo "Logging stopped"])
  | none =>
    let mkdirFx := if dirExists then [] else [Effect.mkdir logDir]
    if openFails then
      (s, mkdirFx ++ [Effect.fileOpenAppend (logDir ++ "/" ++ fileName),
                      Effect.reportError "Failed to create log file"])
    else
      ({ s with logStream := some ⟨logDir ++ "/" ++ fileName, []⟩,
                liveLogStreams := s.liveLogStreams + 1 },
       mkdirFx ++ [Effect.fileOpenAppend (logDir ++ "/" ++ fileName)])

/-- The log line written for a received line event (lines 159-165):
`"[" + timestamp + "] " + data` followed by a newline. -/
def logEntry (now text : String) : String :=
  "[" ++ now ++ "] " ++ text ++ "\n"

/-- The `parser.on('data')` handler (lines 158-170): prints the timestamped
line and, when `logStream` is open, appends `logEntry now text` to it. -/
def handleData (now text : String) (s : SessionState) : SessionState × List Effect :=
  match s.logStream with
  | none => (s, [Effect.printInfo ("[" ++ now ++ "] " ++ text)])
  | some ls =>
    ({ s with logStream := some { ls with contents := ls.contents ++ [logEntry now text] } },
     [Effect.printInfo ("[" ++ now ++ "] " ++ text)])

/-- Fold of `handleData` over a list of (timestamp, text) received-line
events, in arrival order. -/
def processLines (s : SessionState) : List (String × String) → SessionState
  | [] => s
  | e :: rest => processLines (handleData e.1 e.2 s).1 rest

/-! ## The line framer (`ReadlineParser` with delimiter `"\r\n"`, line 134) -/

/-- The fixed two-character line delimiter. -/
def delimiter : List Char := ['\r', '\n']

/-- Feed a byte (character) sequence through the framer from buffer `buf`;
returns the final buffer and the emitted lines in order.  Each character
is appended to the buffer; when the buffer then ends with the delimiter,
the buffered line is emitted without the delimiter and the buffer is
reset. -/
def framerFeed (buf : List Char) : List Char → List Char × List (List Char)
  | [] => (buf, [])
  | c :: rest =>
    if c = '\n' ∧ buf.getLast? = some '\r' then
      let r := framerFeed [] rest
      (r.1, buf.dropLast :: r.2)
    else
      framerFeed (buf ++ [c]) rest

/-- Re-attach the delimiter after each emitted line and concatenate. -/
def joinWithDelim (lines : List (List Char)) : List Char :=
  (lines.map (fun l => l ++ delimiter)).flatten

/-- The line texts produced by feeding a whole string to a fresh framer. -/
def frameLines (s : String) : List String :=
  ((framerFeed [] s.toList).2).map (fun l => String.mk l)

/-! ## Menu-gated event system -/

/-- The events that can reach the session state: operator menu choices
(which the menus gate on `serialConnection`, lines 24-30) and asynchronous
port events. -/
inductive Event where
  | connect (port : String) (baud : Nat) (success : Bool) : Event
  | disconnect : Event
  | send (cmd : String) (writeFails : Bool) : Event
  | toggleLog (fileName : String) (dirExists : Bool) (openFails : Bool) : Event
  | portError : Event
  | portClosed : Event
  | dataLine (now text : String) : Event
  deriving Repr, DecidableEq

/-- One event against the session.  `connect` is only reachable from the
disconnected menu and `send`/`toggleLog` only from the connected menu
(`showMainMenu`, line 24); data lines are only delivered while a parser
pipe exists.  `disconnect` is also invoked on exit and SIGINT and guards
itself. -/
def step (s : SessionState) : Event → SessionState × List Effect
  | .connect p b ok =>
    if s.serialConnection.isSome then (s, []) else connectToDevice p b ok s
  | .disconnect => disconnectFromDevice s
  | .send cmd wf =>
    if s.serialConnection.isSome then sendCommand cmd wf s else (s, [])
  | .toggleLog fn de of =>
    if s.serialConnection.isSome then toggleLogging fn de of s else (s, [])
  | .portError => handleError s
  | .portClosed => handleClose s
  | .dataLine now text =>
    if s.serialConnection.isSome then handleData now text s else (s, [])

/-- Run a sequence of events from a state. -/
def run (s : SessionState) : List Event → SessionState
  | [] => s
  | e :: es => run (step s e).1 es

/-- The live-instance counters agree with the bindings: a bound singleton is
exactly one live instance, an unbound one is zero. -/
def goodCounts (s : SessionState) : Prop :=
  s.liveConnections = (if s.serialConnection.isSome then 1 else 0) ∧
  s.liveLogStreams = (if s.logStream.isSome then 1 else 0)

/-- Recognises a port-open attempt in an effect trace. -/
def isPortOpenAttempt : Effect → Bool
  | .portOpenAttempt _ _ => true
  | _ => false

/-- A concrete connected session with logging on, used for the close-path
claims. -/
def sC1 : SessionState :=
  ⟨some (mkConnection "/dev/ttyUSB0" 115200), some ⟨"logs/out.txt", []⟩, 1, 1⟩

/-- A concrete connected session with logging on, used for the log-format
claim. -/
def sC5 : SessionState :=
  ⟨some (mkConnection "/dev/ttyACM0" 9600), some ⟨"logs/out.txt", []⟩, 1, 1⟩

/-! ## Theorems -/

theorem sendCommand_state (cmd : String) (wf : Bool) (s : SessionState) :
    (sendCommand cmd wf s).1 = s := by
  cases hs : s.serialConnection <;> cases wf <;> simp [sendCommand, hs]

theorem step_preserves_goodCounts (s : SessionState) (e : Event)
    (h : goodCounts s) : goodCounts (step s e).1 := by
  obtain ⟨h1, h2⟩ := h
  rcases s with ⟨conn, log, lc, ll⟩
  simp only [goodCounts] at h1 h2 ⊢
  cases e with
  | connect p b ok =>
    cases conn <;> cases ok <;> simp_all [step, connectToDevice]
  | disconnect =>
    cases conn <;> cases log <;> simp_all [step, disconnectFromDevice]
  | send cmd wf =>
    cases conn <;> simp_all [step, sendCommand_state]
  | toggleLog fn de of =>
    cases conn <;> cases log <;> cases of <;> simp_all [step, toggleLogging]
  | portError =>
    cases conn <;> simp_all [step, handleError]
  | portClosed =>
    cases conn <;> cases log <;> simp_all [step, handleClose]
  | dataLine now text =>
    cases conn <;> cases log <;> simp_all [step, handleData]

theorem run_goodCounts (evs : List Event) :
    ∀ (s : SessionState), goodCounts s → goodCounts (run s evs) := by
  induction evs with
  | nil => intro s h; exact h
  | cons e es ih => intro s h; exact ih _ (step_preserves_goodCounts s e h)

/-- C2: over every sequence of menu operations and external port events
starting from the initial state, the number of live port instances and the
number of live log-stream instances are each at most one; no operation
ever creates a second live instance of either. -/
theorem at_most_one_connection_and_log (evs : List Event) :
    (run initState evs).liveConnections ≤ 1 ∧
    (run initState evs).liveLogStreams ≤ 1 := by
  obtain ⟨h1, h2⟩ := run_goodCounts evs initState ⟨rfl, rfl⟩
  refine ⟨?_, ?_⟩
  · rw [h1]; split <;> decide
  · rw [h2]; split <;> decide

/-- C1 counterexample: in a connected session with an open log stream, the
external `on 'error'` close path discards the connection but leaves the
log stream open, so the claim that every close path closes an open log
destination fails at this input. -/
theorem onError_leaves_log_open :
    sC1.logStream.isSome = true ∧
    (handleError sC1).1.serialConnection = none ∧
    (handleError sC1).1.logStream ≠ none :=
  ⟨rfl, rfl, by decide⟩

/-- C1 (amended): with a connection and an open log stream, explicit
`disconnect` and the external `on 'close'` handler both end with no
connection and no log stream; the external `on 'error'` handler clears
only the connection and leaves the log stream exactly as it was (it is
closed only if a separate `close` event later fires). -/
theorem close_paths_and_log (s : SessionState)
    (hconn : s.serialConnection.isSome = true)
    (hlog : s.logStream.isSome = true) :
    (disconnectFromDevice s).1.serialConnection = none ∧
    (disconnectFromDevice s).1.logStream = none ∧
    (handleClose s).1.serialConnection = none ∧
    (handleClose s).1.logStream = none ∧
    (handleError s).1.serialConnection = none ∧
    (handleError s).1.logStream = s.logStream := by
  rcases s with ⟨conn, log, lc, ll⟩
  cases conn <;> cases log <;>
    simp_all [disconnectFromDevice, handleClose, handleError]

/-- Witness for the amended C1 at a concrete connected-and-logging state. -/
theorem close_paths_and_log_witness :
    (sC1.serialConnection.isSome = true ∧ sC1.logStream.isSome = true) ∧
    ((disconnectFromDevice sC1).1.serialConnection = none ∧
     (disconnectFromDevice sC1).1.logStream = none ∧
     (handleClose sC1).1.serialConnection = none ∧
     (handleClose sC1).1.logStream = none ∧
     (handleError sC1).1.serialConnection = none ∧
     (handleError sC1).1.logStream = sC1.logStream) :=
  ⟨⟨rfl, rfl⟩, close_paths_and_log sC1 rfl rfl⟩

theorem processLines_appends (evs : List (String × String)) :
    ∀ (s : SessionState) (ls : LogStream), s.logStream = some ls →
    (processLines s evs).logStream =
      some ⟨ls.filePath, ls.contents ++ evs.map (fun e => logEntry e.1 e.2)⟩ ∧
    (processLines s evs).serialConnection = s.serialConnection := by
  induction evs with
  | nil =>
    intro s ls h
    cases ls
    simp [processLines, h]
  | cons e rest ih =>
    intro s ls h
    have hd : (handleData e.1 e.2 s).1.logStream =
        some ⟨ls.filePath, ls.contents ++ [logEntry e.1 e.2]⟩ := by
      cases ls
      simp [handleData, h]
    have hdc : (handleData e.1 e.2 s).1.serialConnection = s.serialConnection := by
      cases hls : s.logStream <;> simp [handleData, hls]
    obtain ⟨ih1, ih2⟩ := ih (handleData e.1 e.2 s).1 _ hd
    refine ⟨?_, ?_⟩
    · rw [show processLines s (e :: rest) =
          processLines (handleData e.1 e.2 s).1 rest from rfl]
      rw [ih1]
      simp
    · rw [show processLines s (e :: rest) =
          processLines (handleData e.1 e.2 s).1 rest from rfl]
      rw [ih2, hdc]

/-- C5: while a log stream is open, each received line event with text `t`
and timestamp `T` appends exactly `logEntry T t = "[" ++ T ++ "] " ++ t ++
"\n"` to it, in arrival order, without touching the connection; and a log
stream opened by `toggleLogging` lives at `logs/<fileName>` under the
working directory. -/
theorem logging_appends_timestamped_lines (s : SessionState) (ls : LogStream)
    (evs : List (String × String)) (h : s.logStream = some ls) :
    (processLines s evs).logStream =
      some ⟨ls.filePath, ls.contents ++ evs.map (fun e => logEntry e.1 e.2)⟩ ∧
    (processLines s evs).serialConnection = s.serialConnection ∧
    ∀ (fn : String) (de : Bool) (s' : SessionState), s'.logStream = none →
      ((toggleLogging fn de false s').1.logStream).map LogStream.filePath =
        some ("logs/" ++ fn) := by
  obtain ⟨p1, p2⟩ := processLines_appends evs s ls h
  refine ⟨p1, p2, ?_⟩
  intro fn de s' h'
  rcases s' with ⟨conn', log', lc', ll'⟩
  cases log' with
  | some l => exact absurd h' (by simp)
  | none => rfl

/-- Witness for C5 at a concrete logging session and a single event. -/
theorem logging_appends_witness :
    sC5.logStream = some ⟨"logs/out.txt", []⟩ ∧
    (processLines sC5 [("2024-01-01T00:00:00.000Z", "hello")]).logStream =
      some ⟨"logs/out.txt", [logEntry "2024-01-01T00:00:00.000Z" "hello"]⟩ ∧
    (processLines sC5 [("2024-01-01T00:00:00.000Z", "hello")]).serialConnection =
      sC5.serialConnection ∧
    ((toggleLogging "out.txt" false false initState).1.logStream).map
      LogStream.filePath = some ("logs/" ++ "out.txt") :=
  ⟨rfl,
   (logging_appends_timestamped_lines sC5 ⟨"logs/out.txt", []⟩
     [("2024-01-01T00:00:00.000Z", "hello")] rfl).1,
   (logging_appends_timestamped_lines sC5 ⟨"logs/out.txt", []⟩
     [("2024-01-01T00:00:00.000Z", "hello")] rfl).2.1,
   (logging_appends_timestamped_lines sC5 ⟨"logs/out.txt", []⟩
     [("2024-01-01T00:00:00.000Z", "hello")] rfl).2.2 "out.txt" false initState rfl⟩

/-- C6: when connected and the port write fails, `sendCommand` reports the
failure and leaves the whole session state unchanged (connection and log
stream included); moreover `sendCommand` never changes the session state
on any input. -/
theorem send_failure_keeps_session (s : SessionState) (cmd : String)
    (h : s.serialConnection.isSome = true) :
    (sendCommand cmd true s).1 = s ∧
    Effect.reportError "Failed to send command" ∈ (sendCommand cmd true s).2 ∧
    ∀ (cmd' : String) (wf : Bool) (s' : SessionState),
      (sendCommand cmd' wf s').1 = s' := by
  refine ⟨sendCommand_state cmd true s, ?_,
    fun cmd' wf s' => sendCommand_state cmd' wf s'⟩
  rcases hs : s.serialConnection with _ | c
  · rw [hs] at h; simp at h
  · simp [sendCommand, hs]

/-- Witness for C6 at a concrete connected state. -/
theorem send_failure_witness :
    ((⟨some (mkConnection "/dev/ttyS0" 115200), none, 1, 0⟩ :
        SessionState).serialConnection.isSome = true) ∧
    (sendCommand "AT" true
       ⟨some (mkConnection "/dev/ttyS0" 115200), none, 1, 0⟩).1 =
      ⟨some (mkConnection "/dev/ttyS0" 115200), none, 1, 0⟩ ∧
    Effect.reportError "Failed to send command" ∈
      (sendCommand "AT" true
        ⟨some (mkConnection "/dev/ttyS0" 115200), none, 1, 0⟩).2 ∧
    (sendCommand "AT" false initState).1 = initState :=
  ⟨rfl,
   (send_failure_keeps_session
     ⟨some (mkConnection "/dev/ttyS0" 115200), none, 1, 0⟩ "AT" rfl).1,
   (send_failure_keeps_session
     ⟨some (mkConnection "/dev/ttyS0" 115200), none, 1, 0⟩ "AT" rfl).2.1,
   (send_failure_keeps_session
     ⟨some (mkConnection "/dev/ttyS0" 115200), none, 1, 0⟩ "AT" rfl).2.2
     "AT" false initState⟩

/-- C7: `disconnect()` when already disconnected performs no port or file
operation (its effect trace is empty) and leaves the session state
unchanged. -/
theorem disconnect_when_disconnected_noop (s : SessionState)
    (h : s.serialConnection = none) :
    disconnectFromDevice s = (s, []) := by
  rcases s with ⟨conn, log, lc, ll⟩
  cases conn with
  | some c => exact absurd h (by simp)
  | none => cases log <;> rfl

/-- Witness for C7 at the initial state. -/
theorem disconnect_noop_witness :
    (initState.serialConnection = none) ∧
    disconnectFromDevice initState = (initState, []) :=
  ⟨rfl, disconnect_when_disconnected_noop initState rfl⟩

/-- C8: with no log stream open, `toggleLogging` creates the `logs`
directory when absent, opens `logs/<fileName>` in append mode and binds it,
leaving the connection untouched; with one open, it ends it (flush and
close) and unbinds it. -/
theorem toggleLogging_toggles (s s' : SessionState) (fn : String)
    (de de' of' : Bool) (ls : LogStream)
    (h1 : s.logStream = none) (h2 : s'.logStream = some ls) :
    (toggleLogging fn de false s).1.logStream = some ⟨logDir ++ "/" ++ fn, []⟩ ∧
    (toggleLogging fn de false s).2 =
      (if de then [] else [Effect.mkdir logDir]) ++
        [Effect.fileOpenAppend (logDir ++ "/" ++ fn)] ∧
    (toggleLogging fn de false s).1.serialConnection = s.serialConnection ∧
    (toggleLogging fn de' of' s').1.logStream = none ∧
    (toggleLogging fn de' of' s').2 =
      [Effect.fileEnd ls.filePath, Effect.printInfo "Logging stopped"] := by
  rcases s with ⟨conn, log, lc, ll⟩
  rcases s' with ⟨conn', log', lc', ll'⟩
  cases log with
  | some l => exact absurd h1 (by simp)
  | none =>
    cases log' with
    | none => exact absurd h2 (by simp)
    | some l' =>
      have hl : l' = ls := by simpa using h2
      subst hl
      exact ⟨rfl, rfl, rfl, rfl, rfl⟩

/-- Witness for C8: opening at the timestamp-derived default name and
closing an open stream, at concrete states. -/
theorem toggleLogging_witness :
    ((⟨some (mkConnection "/dev/ttyUSB1" 9600), none, 1, 0⟩ :
        SessionState).logStream = none ∧
     (⟨some (mkConnection "/dev/ttyUSB1" 9600), some ⟨"logs/old.txt", []⟩, 1, 1⟩ :
        SessionState).logStream = some ⟨"logs/old.txt", []⟩) ∧
    ((toggleLogging (defaultLogFileName "2024-01-01T00:00:00.000Z") false false
        ⟨some (mkConnection "/dev/ttyUSB1" 9600), none, 1, 0⟩).1.logStream =
       some ⟨logDir ++ "/" ++ defaultLogFileName "2024-01-01T00:00:00.000Z", []⟩ ∧
     (toggleLogging (defaultLogFileName "2024-01-01T00:00:00.000Z") false false
        ⟨some (mkConnection "/dev/ttyUSB1" 9600), none, 1, 0⟩).2 =
       (if false then [] else [Effect.mkdir logDir]) ++
         [Effect.fileOpenAppend
           (logDir ++ "/" ++ defaultLogFileName "2024-01-01T00:00:00.000Z")] ∧
     (toggleLogging (defaultLogFileName "2024-01-01T00:00:00.000Z") false false
        ⟨some (mkConnection "/dev/ttyUSB1" 9600), none, 1, 0⟩).1.serialConnection =
       (⟨some (mkConnection "/dev/ttyUSB1" 9600), none, 1, 0⟩ :
          SessionState).serialConnection ∧
     (toggleLogging (defaultLogFileName "2024-01-01T00:00:00.000Z") true false
        ⟨some (mkConnection "/dev/ttyUSB1" 9600), some ⟨"logs/old.txt", []⟩, 1,
          1⟩).1.logStream = none ∧
     (toggleLogging (defaultLogFileName "2024-01-01T00:00:00.000Z") true false
        ⟨some (mkConnection "/dev/ttyUSB1" 9600), some ⟨"logs/old.txt", []⟩, 1,
          1⟩).2 =
       [Effect.fileEnd "logs/old.txt", Effect.printInfo "Logging stopped"]) :=
  ⟨⟨rfl, rfl⟩,
   toggleLogging_toggles
     ⟨some (mkConnection "/dev/ttyUSB1" 9600), none, 1, 0⟩
     ⟨some (mkConnection "/dev/ttyUSB1" 9600), some ⟨"logs/old.txt", []⟩, 1, 1⟩
     (defaultLogFileName "2024-01-01T00:00:00.000Z") false true false
     ⟨"logs/old.txt", []⟩ rfl rfl⟩

/-- C9: a failed connect leaves the disconnected session unchanged, reports
the error to the operator, and makes exactly one port-open attempt (no
retry). -/
theorem connect_failure_stays_disconnected (p : String) (b : Nat)
    (s : SessionState) (h : s.serialConnection = none) :
    (connectToDevice p b false s).1 = s ∧
    Effect.reportError "Connection error" ∈ (connectToDevice p b false s).2 ∧
    ((connectToDevice p b false s).2.filter isPortOpenAttempt).length = 1 := by
  rcases s with ⟨conn, log, lc, ll⟩
  cases conn with
  | some c => exact absurd h (by simp)
  | none => exact ⟨rfl, by simp [connectToDevice], rfl⟩

/-- Witness for C9 at the initial state. -/
theorem connect_failure_witness :
    (initState.serialConnection = none) ∧
    ((connectToDevice "/dev/ttyUSB9" 115200 false initState).1 = initState ∧
     Effect.reportError "Connection error" ∈
       (connectToDevice "/dev/ttyUSB9" 115200 false initState).2 ∧
     ((connectToDevice "/dev/ttyUSB9" 115200 false initState).2.filter
        isPortOpenAttempt).length = 1) :=
  ⟨rfl, connect_failure_stays_disconnected "/dev/ttyUSB9" 115200 initState rfl⟩

/-- C10: `sendCommand` while disconnected only reports the not-connected
message: the state is returned unchanged and no port write is attempted. -/
theorem send_when_disconnected_safe (s : SessionState) (cmd : String)
    (wf : Bool) (h : s.serialConnection = none) :
    sendCommand cmd wf s = (s, [Effect.reportError "Not connected to any device"]) ∧
    ∀ (bytes : String), Effect.portWriteAttempt bytes ∉ (sendCommand cmd wf s).2 := by
  rcases s with ⟨conn, log, lc, ll⟩
  cases conn with
  | some c => exact absurd h (by simp)
  | none =>
    refine ⟨rfl, ?_⟩
    intro bytes hmem
    simp [sendCommand] at hmem

/-- Witness for C10 at the initial state. -/
theorem send_disconnected_witness :
    (initState.serialConnection = none) ∧
    sendCommand "AT" true initState =
      (initState, [Effect.reportError "Not connected to any device"]) ∧
    Effect.portWriteAttempt ("AT" ++ "\r\n") ∉ (sendCommand "AT" true initState).2 :=
  ⟨rfl,
   (send_when_disconnected_safe initState "AT" true rfl).1,
   (send_when_disconnected_safe initState "AT" true rfl).2 ("AT" ++ "\r\n")⟩

theorem framerFeed_reassembly_aux (input : List Char) : ∀ (buf : List Char),
    joinWithDelim (framerFeed buf input).2 ++ (framerFeed buf input).1 = buf ++ input := by
  induction input with
  | nil => intro buf; simp [framerFeed, joinWithDelim]
  | cons c rest ih =>
    intro buf
    rw [framerFeed]
    split
    · rename_i hc
      obtain ⟨hc1, hc2⟩ := hc
      subst hc1
      have hbuf : buf.dropLast ++ ['\r'] = buf :=
        List.dropLast_append_getLast? '\r' hc2
      simp only [joinWithDelim, List.map_cons, List.flatten_cons, delimiter]
      have ihb := ih []
      simp only [joinWithDelim, delimiter] at ihb
      rw [List.append_assoc, List.append_assoc, ihb, List.nil_append]
      rw [show (['\r', '\n'] ++ rest : List Char) = ['\r'] ++ '\n' :: rest from rfl]
      rw [← List.append_assoc, hbuf]
    · rename_i hc
      rw [ih (buf ++ [c])]
      simp

theorem framerFeed_append_aux (xs : List Char) : ∀ (buf ys : List Char),
    framerFeed buf (xs ++ ys) =
      ((framerFeed (framerFeed buf xs).1 ys).1,
       (framerFeed buf xs).2 ++ (framerFeed (framerFeed buf xs).1 ys).2) := by
  induction xs with
  | nil => intro buf ys; simp [framerFeed]
  | cons c rest ih =>
    intro buf ys
    simp only [List.cons_append, framerFeed]
    by_cases hc : c = '\n' ∧ buf.getLast? = some '\r'
    · rw [if_pos hc, if_pos hc]
      simp [ih]
    · rw [if_neg hc, if_neg hc]
      exact ih _ _

/-- C3: for every byte stream fed to the line framer, re-attaching the
delimiter after each emitted line and appending the buffered unterminated
remainder reproduces the original stream; and feeding split chunks equals
feeding their concatenation (the partial line is buffered across read
boundaries, and is never emitted — it stays in the buffer, which is simply
dropped when the connection closes). -/
theorem framer_reassembles_stream (input chunk1 chunk2 : List Char) :
    joinWithDelim (framerFeed [] input).2 ++ (framerFeed [] input).1 = input ∧
    framerFeed [] (chunk1 ++ chunk2) =
      ((framerFeed (framerFeed [] chunk1).1 chunk2).1,
       (framerFeed [] chunk1).2 ++ (framerFeed (framerFeed [] chunk1).1 chunk2).2) :=
  ⟨framerFeed_reassembly_aux input [], framerFeed_append_aux chunk1 [] chunk2⟩

/-- C4: a successful `connect` leaves the session connected with the
requested port and baud rate, and feeding the raw bytes `"A\r\nB\r\n"`
through the line framer produces exactly the two line texts `"A"` then
`"B"` (the delimiter itself is discarded, and nothing is left buffered). -/
theorem connect_then_two_received_lines :
    (step initState (Event.connect "/dev/ttyUSB0" 115200 true)).1.serialConnection =
      some (mkConnection "/dev/ttyUSB0" 115200) ∧
    frameLines "A\r\nB\r\n" = ["A", "B"] ∧
    (framerFeed [] ("A\r\nB\r\n".toList)).1 = [] := by
  refine ⟨rfl, ?_, ?_⟩ <;> decide

end SerialMonitor
